import Mathlib

/-!
Shallow embedding of `src/SWORDXplorer.py` (SWORDXplorer: SWOT Hydrocron API
data download app).

The embedding covers:
* the sanitization of the filter value and the derived output paths
  (lines 154-157 and 209 of the source);
* the pandas-style filter selector producing the reach-id list
  (lines 147-148);
* the sequential fetch pipeline (lines 159-205): per-reach request,
  429 retry, 400 logging, success/empty/exception accounting, and the
  `finally: time.sleep(throttle_delay)` pacing, modelled as an event trace;
* the upload caching logic of the shapefile loader (lines 89-107).

External effects are modelled explicitly: an HTTP exchange is an
environment value saying what each `requests.get` call returns (or that it
raised), CSV parsing plus the `time_str` datetime filtering is the
per-reach row list the environment attaches to a payload, and sleeping is
an emitted trace event.  File writes of per-reach CSVs are assumed to
succeed (the log file is modelled as the list of appended lines).
Durations are rationals (the throttle slider ranges over 0.1 .. 2.0 s).
-/

namespace SWORD

/-! ### Sanitization and output paths (source lines 154-157, 209) -/

/-- Model of the character predicate in
`"".join(c for c in filter_value if c.isalnum() or c in " _-")`.
`Char.isAlphanum` models Python's `str.isalnum` (they agree on ASCII;
non-ASCII Unicode alphanumerics are out of scope of this model). -/
def allowedChar (c : Char) : Bool :=
  c.isAlphanum || c = ' ' || c = '_' || c = '-'

/-- `safe_val`: the filter value with every disallowed character stripped,
remaining characters in order. -/
def sanitizeVal (s : String) : String :=
  String.mk (s.data.filter allowedChar)

/-- `OUTPUT_DIR = f"swot_{safe_val}_output"`. -/
def outputDirName (v : String) : String :=
  "swot_" ++ sanitizeVal v ++ "_output"

/-- Base name of the combined file, `f"combined_{safe_val}.csv"`. -/
def combinedFileName (v : String) : String :=
  "combined_" ++ sanitizeVal v ++ ".csv"

/-! ### Filter selector (source lines 147-148) -/

/-- A pandas cell value: missing (`NaN`/`None`), a string, or an integer. -/
inductive PyVal where
  | null : PyVal
  | str (s : String) : PyVal
  | int (n : Int) : PyVal
deriving DecidableEq

/-- Elementwise pandas equality `df[col] == value`: a missing value compares
unequal to everything (including another missing value), and values of
different kinds compare unequal. -/
def pyEq : PyVal → PyVal → Bool
  | PyVal.str a, PyVal.str b => a == b
  | PyVal.int a, PyVal.int b => a == b
  | _, _ => false

/-- Whether a cell is missing (what `dropna` removes). -/
def isNull : PyVal → Bool
  | PyVal.null => true
  | _ => false

/-- `astype(str)` on a single cell. -/
def pyStrOf : PyVal → String
  | PyVal.null => "nan"
  | PyVal.str s => s
  | PyVal.int n => toString n

/-- A data frame: one row per reach, each row a total map from column name
to cell value. -/
abbrev Frame := List (String → PyVal)

/-- `df_geo[df_geo[filter_column] == filter_value]`: row order preserved. -/
def filterFrame (df : Frame) (col : String) (v : PyVal) : Frame :=
  df.filter (fun r => pyEq (r col) v)

/-- `filtered['reach_id'].dropna().astype(str).tolist()`. -/
def reachIds (df : Frame) (col : String) (v : PyVal) : List String :=
  (((filterFrame df col v).map (fun r => r "reach_id")).filter
      (fun x => !isNull x)).map pyStrOf

/-! ### Python `int()` on the `Retry-After` header (source line 177) -/

/-- Value of a nonempty decimal digit string. -/
def digitsVal (cs : List Char) : Nat :=
  cs.foldl (fun a c => 10 * a + (c.toNat - 48)) 0

/-- Parse a nonempty run of decimal digits, `none` otherwise. -/
def parseDigits (cs : List Char) : Option Nat :=
  if cs.isEmpty then none
  else if cs.all Char.isDigit then some (digitsVal cs) else none

/-- Surrounding whitespace stripped from a character list. -/
def trimChars (cs : List Char) : List Char :=
  ((cs.dropWhile Char.isWhitespace).reverse.dropWhile Char.isWhitespace).reverse

/-- Model of Python `int(s)` on a string: surrounding whitespace stripped,
an optional sign, then decimal digits; anything else raises `ValueError`,
modelled as `none`.  (Underscore digit separators and non-ASCII digits,
which CPython also accepts, are outside the model.) -/
def pyInt (s : String) : Option Int :=
  match trimChars s.data with
  | '+' :: cs => (parseDigits cs).map (fun n => (n : Int))
  | '-' :: cs => (parseDigits cs).map (fun n => -(n : Int))
  | cs => (parseDigits cs).map (fun n => (n : Int))

/-- `int(resp.headers.get('Retry-After', 10))`: an absent header yields the
integer `10` directly (no string parse); a present header goes through
`int(...)`, which may raise (`none`). -/
def retryAfterVal (ra : Option String) : Option Int :=
  match ra with
  | none => some 10
  | some s => pyInt s

/-! ### Fetch pipeline (source lines 159-205)

A `Row` is an abstract row of a parsed per-reach table; the pipeline never
inspects rows, so the model is polymorphic in them. -/

/-- What extracting and parsing the body of a 2xx/3xx response yields:
either some step of `resp.json()` / `data.get('results', {}).get('csv', '')`
raised, or it produced the CSV text `txt`; `parsed` is the table that
`pd.read_csv` plus the `time_str` datetime-coercion-and-drop step would
produce from a nonempty `txt` (`none` models `read_csv` raising). -/
inductive Body (Row : Type) where
  | exn : Body Row
  | csv (txt : String) (parsed : Option (List Row)) : Body Row
deriving DecidableEq

/-- What one `requests.get(url, timeout=30)` call did: raised, or returned a
response with a status code, an optional `Retry-After` header, and a body. -/
inductive Attempt (Row : Type) where
  | exn : Attempt Row
  | resp (status : Nat) (retryAfter : Option String) (body : Body Row) :
      Attempt Row
deriving DecidableEq

/-- The environment for one reach: the outcome of the first request and of
the (at most one) retry request. -/
structure ReachEnv (Row : Type) where
  first : Attempt Row
  second : Attempt Row
deriving DecidableEq

/-- How one reach ends up: a parsed table appended to the accumulator, the
400 path (logged bad request), or any other error (non-400 HTTP failure,
empty payload, or an exception during request/parse). -/
inductive ReachOutcome (Row : Type) where
  | success (rows : List Row) : ReachOutcome Row
  | badRequest : ReachOutcome Row
  | failed : ReachOutcome Row
deriving DecidableEq

/-- Observable events of the loop body: a `requests.get` being issued, and a
`time.sleep` for some number of seconds. -/
inductive Event where
  | reqStart (rid : String) : Event
  | slept (secs : Rat) : Event
deriving DecidableEq

/-- The tail of the loop body applied to whichever response is current after
the optional 429 retry: the `status_code == 400` check, then
`raise_for_status()` (raises for any status in 400..599), then the
payload branches (`if csv_txt:` vs the no-data warning). -/
def finishResp {Row : Type} (status : Nat) (body : Body Row) :
    ReachOutcome Row :=
  if status = 400 then ReachOutcome.badRequest
  else if 400 ≤ status then ReachOutcome.failed
  else
    match body with
    | Body.exn => ReachOutcome.failed
    | Body.csv txt parsed =>
      if txt = "" then ReachOutcome.failed
      else
        match parsed with
        | none => ReachOutcome.failed
        | some rows => ReachOutcome.success rows

/-- One iteration of the fetch loop for reach `rid`: the `try` block
(request, optional single 429 retry, 400 branch, `raise_for_status`,
payload handling), the `except` catch-all mapping any raise to `failed`,
and the `finally: time.sleep(throttle_delay)`.  Returns the outcome and
the emitted event trace.  The `slider` guarantees `delay` itself is a
valid sleep argument; a negative parsed `Retry-After` makes
`time.sleep(retry)` raise, which the `except` catches. -/
def processReach {Row : Type} (rid : String) (delay : Rat)
    (env : ReachEnv Row) : ReachOutcome Row × List Event :=
  let core : ReachOutcome Row × List Event :=
    match env.first with
    | Attempt.exn => (ReachOutcome.failed, [Event.reqStart rid])
    | Attempt.resp s ra body =>
      if s = 429 then
        match retryAfterVal ra with
        | none => (ReachOutcome.failed, [Event.reqStart rid])
        | some k =>
          if k < 0 then (ReachOutcome.failed, [Event.reqStart rid])
          else
            match env.second with
            | Attempt.exn =>
              (ReachOutcome.failed,
                [Event.reqStart rid, Event.slept (k : Rat),
                  Event.reqStart rid])
            | Attempt.resp s2 _ body2 =>
              (finishResp s2 body2,
                [Event.reqStart rid, Event.slept (k : Rat),
                  Event.reqStart rid])
      else
        (finishResp s body, [Event.reqStart rid])
  (core.1, core.2 ++ [Event.slept delay])

/-- The run's mutable state: `results` accumulator (one table per
successful reach, in processing order), `errors` counter, and the lines
appended to `LOG_FILE`. -/
structure RunState (Row : Type) where
  results : List (List Row)
  errors : Nat
  log : List String
deriving DecidableEq

/-- `f"{datetime.now().isoformat()} - {rid}\n"` as a log line (the trailing
newline is the line delimiter and is left implicit). -/
def logLine (now rid : String) : String :=
  now ++ " - " ++ rid

/-- How one reach outcome updates the run state: a success appends its
table to `results`, the 400 path appends one log line and increments
`errors`, any other error just increments `errors`. -/
def stepState {Row : Type} (st : RunState Row) (rid now : String) :
    ReachOutcome Row → RunState Row
  | ReachOutcome.success rows => { st with results := st.results ++ [rows] }
  | ReachOutcome.badRequest =>
      { st with errors := st.errors + 1, log := st.log ++ [logLine now rid] }
  | ReachOutcome.failed => { st with errors := st.errors + 1 }

/-- One reach occurrence to process: its identifier, the
`datetime.now().isoformat()` timestamp of its iteration, and its HTTP
environment. -/
structure ReachItem (Row : Type) where
  rid : String
  now : String
  env : ReachEnv Row
deriving DecidableEq

/-- The fetch loop from a given state: strictly sequential, one
`processReach` per item, event traces concatenated in order. -/
def runFrom {Row : Type} (delay : Rat) (st : RunState Row) :
    List (ReachItem Row) → RunState Row × List Event
  | [] => (st, [])
  | item :: rest =>
    let r := processReach item.rid delay item.env
    let next := runFrom delay (stepState st item.rid item.now r.1) rest
    (next.1, r.2 ++ next.2)

/-- The state before the loop: `results = []`, `errors = 0`, empty log. -/
def initState (Row : Type) : RunState Row := ⟨[], 0, []⟩

/-- The whole fetch loop of one run. -/
def runPipeline {Row : Type} (delay : Rat) (items : List (ReachItem Row)) :
    RunState Row × List Event :=
  runFrom delay (initState Row) items

/-- `pd.concat(results, ignore_index=True)`: tables in accumulator order,
row order preserved within each table. -/
def combined {Row : Type} (st : RunState Row) : List Row :=
  st.results.flatten

/-- Total seconds slept in an event trace. -/
def sleptSum (evs : List Event) : Rat :=
  (evs.filterMap (fun e =>
    match e with
    | Event.slept q => some q
    | _ => none)).sum

/-- Number of `requests.get` calls issued in an event trace. -/
def countStarts (evs : List Event) : Nat :=
  (evs.filter (fun e =>
    match e with
    | Event.reqStart _ => true
    | _ => false)).length

/-- An environment of the fully successful shape: the first request returns
status 200 with a nonempty CSV payload that parses to `rows`. -/
def okEnv {Row : Type} (env : ReachEnv Row) (rows : List Row) : Prop :=
  ∃ ra txt, txt ≠ "" ∧
    env.first = Attempt.resp 200 ra (Body.csv txt (some rows))

/-! ### Shapefile upload caching (source lines 69-107) -/

/-- The session state the upload block touches: the loaded dataset and the
identity key `tuple((f.name, f.size) for f in sword_file)` of the last
successful load. -/
structure Session (D : Type) where
  geo_df : Option D
  upload_key : Option (List (String × Nat))
deriving DecidableEq

/-- Outcome of `gpd.read_file` on the written-out bundle. -/
inductive ParseResult (D : Type) where
  | ok (d : D) : ParseResult D
  | err (msg : String) : ParseResult D
deriving DecidableEq

/-- Result of running the upload block once: the new session state, whether
`gpd.read_file` was invoked, and the error message shown (if any). -/
structure UploadOutcome (D : Type) where
  state : Session D
  parsed : Bool
  errorMsg : Option String
deriving DecidableEq

/-- The upload-processing block: does nothing when no files are uploaded or
the identity key equals the stored one; otherwise writes the files out and,
when a `.shp` file is present (`hasShp`), calls `gpd.read_file` — on
success it stores the dataset and the key, on failure it shows the error
and leaves both unchanged. -/
def processUpload {D : Type} (st : Session D) (files : List (String × Nat))
    (hasShp : Bool) (parse : ParseResult D) : UploadOutcome D :=
  if files = [] then ⟨st, false, none⟩
  else if st.upload_key = some files then ⟨st, false, none⟩
  else if hasShp then
    match parse with
    | ParseResult.ok d => ⟨⟨some d, some files⟩, true, none⟩
    | ParseResult.err m =>
        ⟨st, true, some ("Error loading shapefile: " ++ m)⟩
  else ⟨st, false, some "No .shp file found in upload"⟩

/-! ### Concrete inputs used by witnesses and counterexamples -/

/-- A row whose filter column matches `"X"` but whose `reach_id` is the
empty string (a non-null value, so `dropna` keeps it). -/
def exRow : String → PyVal := fun c =>
  if c = "country" then PyVal.str "X"
  else if c = "reach_id" then PyVal.str "" else PyVal.null

/-- A one-row frame exercising the empty-identifier case. -/
def exFrame : Frame := [exRow]

/-- Environment: a 429 response whose `Retry-After` header is the
non-numeric string `"soon"`, followed by a 200 with data. -/
def envC2 : ReachEnv Nat :=
  ⟨Attempt.resp 429 (some "soon") (Body.csv "x" (some [1])),
    Attempt.resp 200 none (Body.csv "x" (some [1]))⟩

/-- Environment: a 429 with no `Retry-After` header, and a second 429. -/
def env429W : ReachEnv Nat :=
  ⟨Attempt.resp 429 none (Body.csv "" none),
    Attempt.resp 429 none (Body.csv "" none)⟩

/-- Environment: a straight 400 response. -/
def env400W : ReachEnv Nat :=
  ⟨Attempt.resp 400 none (Body.csv "" none), Attempt.exn⟩

/-- Environment: a 200 whose payload parses to the two-row table `[0, 1]`. -/
def envOkA : ReachEnv Nat :=
  ⟨Attempt.resp 200 none (Body.csv "a" (some [0, 1])), Attempt.exn⟩

/-- Environment: a 200 whose payload parses to the one-row table `[2]`. -/
def envOkB : ReachEnv Nat :=
  ⟨Attempt.resp 200 none (Body.csv "b" (some [2])), Attempt.exn⟩

/-- Two fully successful reach items paired with their expected tables. -/
def pairsW : List (ReachItem Nat × List Nat) :=
  [(⟨"r1", "t1", envOkA⟩, [0, 1]), (⟨"r2", "t2", envOkB⟩, [2])]

/-- A one-file upload identity. -/
def filesW : List (String × Nat) := [("a.shp", 3)]

end SWORD

namespace SWORD

/-! ### Helper lemmas -/

theorem runFrom_trace {Row : Type} (delay : Rat) (st : RunState Row) :
    ∀ items : List (ReachItem Row),
      (runFrom delay st items).2 =
        (items.map (fun it => (processReach it.rid delay it.env).2)).flatten
  | [] => rfl
  | item :: rest => by
    simp only [runFrom, List.map_cons, List.flatten_cons]
    rw [runFrom_trace delay _ rest]

theorem processReach_trace_shape {Row : Type} (rid : String) (delay : Rat)
    (env : ReachEnv Row) :
    (processReach rid delay env).2 = [Event.reqStart rid, Event.slept delay]
    ∨ ∃ k : Rat, 0 ≤ k ∧ (processReach rid delay env).2 =
        [Event.reqStart rid, Event.slept k, Event.reqStart rid,
          Event.slept delay] := by
  obtain ⟨first, second⟩ := env
  cases first with
  | exn => exact Or.inl rfl
  | resp s ra body =>
    by_cases hs : s = 429
    · subst hs
      cases hra : retryAfterVal ra with
      | none => simp [processReach, hra]
      | some k =>
        by_cases hk : k < 0
        · simp [processReach, hra, hk]
        · cases second with
          | exn =>
            refine Or.inr ⟨(k : Rat), ?_, ?_⟩
            · exact_mod_cast le_of_not_lt hk
            · simp [processReach, hra, hk]
          | resp s2 ra2 body2 =>
            refine Or.inr ⟨(k : Rat), ?_, ?_⟩
            · exact_mod_cast le_of_not_lt hk
            · simp [processReach, hra, hk]
    · simp [processReach, hs]

/-! ### Claims -/

/-- Claim C8: the output directory name is built from a sanitized copy of
the filter value in which every character that is not alphanumeric, space,
underscore or hyphen is stripped, remaining characters keeping their
order (the sanitized text is a sublist of the original and every kept
character is allowed); in particular `"Congo/Zaire"` sanitizes to
`"CongoZaire"` and the directory is `swot_<sanitized>_output`. -/
theorem c8_sanitization (v : String) :
    (sanitizeVal v).data = v.data.filter allowedChar
    ∧ (sanitizeVal v).data.Sublist v.data
    ∧ ((sanitizeVal v).data.all allowedChar) = true
    ∧ sanitizeVal "Congo/Zaire" = "CongoZaire"
    ∧ outputDirName v = "swot_" ++ sanitizeVal v ++ "_output" := by
  refine ⟨rfl, List.filter_sublist v.data, ?_, by decide, rfl⟩
  rw [List.all_eq_true]
  intro c hc
  exact List.of_mem_filter hc

/-- Claim C10: a filter value made entirely of disallowed characters
sanitizes to the empty string, so the run uses the literal directory name
`swot__output` and the combined file name `combined_.csv`; no fallback
identifier is generated. -/
theorem c10_empty_sanitized (v : String)
    (h : v.data.all (fun c => !allowedChar c) = true) :
    sanitizeVal v = "" ∧ outputDirName v = "swot__output"
    ∧ combinedFileName v = "combined_.csv" := by
  have hnil : v.data.filter allowedChar = [] := by
    rw [List.filter_eq_nil_iff]
    intro c hc
    have := List.all_eq_true.1 h c hc
    simpa using this
  have hsan : sanitizeVal v = "" := by
    show String.mk (v.data.filter allowedChar) = ""
    rw [hnil]
  refine ⟨hsan, ?_, ?_⟩
  · rw [outputDirName, hsan]
    rfl
  · rw [combinedFileName, hsan]
    rfl

/-- Witness for C10 at the all-disallowed value `"///"`. -/
theorem c10_empty_sanitized_witness :
    ("///".data.all (fun c => !allowedChar c) = true)
    ∧ (sanitizeVal "///" = "" ∧ outputDirName "///" = "swot__output"
       ∧ combinedFileName "///" = "combined_.csv") :=
  ⟨by decide, c10_empty_sanitized "///" (by decide)⟩

/-- Counterexample for claim C5: the claim asserts the identifier list
contains no null or empty identifiers, but `dropna` removes only missing
values, not empty strings.  In a frame whose single row matches the filter
value `"X"` and has `reach_id = ""` (a non-null empty string), the chosen
value occurs in the dataset yet the output list contains the empty
identifier. -/
theorem c5_counterexample :
    (∃ r ∈ exFrame, pyEq (r "country") (PyVal.str "X") = true)
    ∧ ¬ (∀ id ∈ reachIds exFrame "country" (PyVal.str "X"), id ≠ "") := by
  constructor
  · exact ⟨exRow, by simp [exFrame], by decide⟩
  · intro h
    exact h "" (by decide) rfl

/-- Claim C5 (amended): for every dataset and (column, value) pair, the
filter's output identifier list has length at most the number of rows, and
every identifier in it is the string coercion of the non-null `reach_id`
cell of some row whose chosen column equals the chosen value.  (Empty
string identifiers are possible: `dropna` removes only nulls.) -/
theorem c5_filter_sound (df : Frame) (col : String) (v : PyVal) :
    (reachIds df col v).length ≤ df.length
    ∧ ((reachIds df col v).all (fun id =>
        df.any (fun r => pyEq (r col) v && !isNull (r "reach_id")
          && (id == pyStrOf (r "reach_id"))))) = true := by
  constructor
  · calc (reachIds df col v).length
        = (((filterFrame df col v).map (fun r => r "reach_id")).filter
            (fun x => !isNull x)).length := List.length_map _ _
      _ ≤ ((filterFrame df col v).map (fun r => r "reach_id")).length :=
          List.length_filter_le _ _
      _ = (filterFrame df col v).length := List.length_map _ _
      _ ≤ df.length := List.length_filter_le _ _
  · rw [List.all_eq_true]
    intro id hid
    rw [List.any_eq_true]
    obtain ⟨x, hx, rfl⟩ := List.mem_map.1 hid
    have hx' := List.mem_filter.1 hx
    obtain ⟨r, hr, rfl⟩ := List.mem_map.1 hx'.1
    have hr' := List.mem_filter.1 hr
    refine ⟨r, hr'.1, ?_⟩
    simp [hr'.2, hx'.2]

/-- Claim C1: the loop body's `finally` sleeps the configured delay after
every reach regardless of outcome — every per-reach trace ends with
`slept delay` and starts with that reach's request; the run's trace is the
concatenation of the per-reach traces; and at least `delay` seconds are
slept strictly after each reach's first request start, so the next reach's
request start is at least `delay` seconds later. -/
theorem c1_unconditional_throttle {Row : Type} (rid : String) (delay : Rat)
    (env : ReachEnv Row) (items : List (ReachItem Row)) :
    (processReach rid delay env).2.getLast? = some (Event.slept delay)
    ∧ (processReach rid delay env).2.head? = some (Event.reqStart rid)
    ∧ (runPipeline delay items).2 =
        (items.map (fun it => (processReach it.rid delay it.env).2)).flatten
    ∧ delay ≤ sleptSum (processReach rid delay env).2.tail := by
  obtain hshape | ⟨k, hk, hshape⟩ := processReach_trace_shape rid delay env
  · rw [hshape]
    refine ⟨rfl, rfl, runFrom_trace delay _ items, ?_⟩
    simp [sleptSum]
  · rw [hshape]
    refine ⟨rfl, rfl, runFrom_trace delay _ items, ?_⟩
    simp only [sleptSum, List.tail_cons, List.filterMap_cons, List.sum_cons,
      List.sum_nil, List.filterMap_nil]
    linarith

theorem runFrom_count {Row : Type} (delay : Rat)
    (items : List (ReachItem Row)) :
    ∀ st : RunState Row,
      (runFrom delay st items).1.results.length
          + (runFrom delay st items).1.errors
        = st.results.length + st.errors + items.length := by
  induction items with
  | nil => intro st; simp [runFrom]
  | cons item rest ih =>
    intro st
    simp only [runFrom]
    rw [ih]
    cases (processReach item.rid delay item.env).1 <;>
      simp [stepState] <;> omega

/-- Claim C9: after the loop has processed `n` reach items, the number of
accumulated tables plus the error counter is exactly `n`; each single
outcome either appends one table (leaving the error counter and log
untouched) or increments the error counter by one (leaving the tables
untouched), never both and never neither. -/
theorem c9_exactly_one_outcome {Row : Type} (delay : Rat)
    (items : List (ReachItem Row)) :
    ((runPipeline delay items).1.results.length
        + (runPipeline delay items).1.errors = items.length)
    ∧ ∀ (st : RunState Row) (rid now : String) (out : ReachOutcome Row),
        ((stepState st rid now out).results.length = st.results.length + 1
          ∧ (stepState st rid now out).errors = st.errors
          ∧ (stepState st rid now out).log = st.log)
        ∨ ((stepState st rid now out).results = st.results
          ∧ (stepState st rid now out).errors = st.errors + 1) := by
  constructor
  · have h := runFrom_count delay items (initState Row)
    simpa [runPipeline, initState] using h
  · intro st rid now out
    cases out with
    | success rows => exact Or.inl (by simp [stepState])
    | badRequest => exact Or.inr (by simp [stepState])
    | failed => exact Or.inr (by simp [stepState])

theorem processReach_ok {Row : Type} (rid : String) (delay : Rat)
    (env : ReachEnv Row) (rows : List Row) (h : okEnv env rows) :
    (processReach rid delay env).1 = ReachOutcome.success rows := by
  obtain ⟨ra, txt, htxt, hfirst⟩ := h
  simp [processReach, hfirst, finishResp, htxt]

theorem runFrom_ok {Row : Type} (delay : Rat)
    (pairs : List (ReachItem Row × List Row)) :
    ∀ st : RunState Row, (∀ p ∈ pairs, okEnv p.1.env p.2) →
      (runFrom delay st (pairs.map Prod.fst)).1.results
        = st.results ++ pairs.map Prod.snd := by
  induction pairs with
  | nil => intro st _; simp [runFrom]
  | cons p rest ih =>
    intro st h
    have hp := h p (List.mem_cons_self _ _)
    have hout := processReach_ok p.1.rid delay p.1.env p.2 hp
    simp only [List.map_cons, runFrom, hout]
    rw [ih _ (fun q hq => h q (List.mem_cons_of_mem _ hq))]
    simp [stepState]

/-- Claim C4: in a run where every reach request returns 200 with a
nonempty payload parsing to its table, the accumulated results are exactly
the per-reach tables in processing order, the combined table is their
concatenation (row order preserved within each table), and its row count is
the sum of the per-reach row counts. -/
theorem c4_concatenation {Row : Type} (delay : Rat)
    (pairs : List (ReachItem Row × List Row))
    (h : ∀ p ∈ pairs, okEnv p.1.env p.2) :
    (runPipeline delay (pairs.map Prod.fst)).1.results = pairs.map Prod.snd
    ∧ combined (runPipeline delay (pairs.map Prod.fst)).1
        = (pairs.map Prod.snd).flatten
    ∧ (combined (runPipeline delay (pairs.map Prod.fst)).1).length
        = (pairs.map (fun p => p.2.length)).sum := by
  have hres : (runPipeline delay (pairs.map Prod.fst)).1.results
      = pairs.map Prod.snd := by
    have h0 := runFrom_ok delay pairs (initState Row) h
    simpa [runPipeline, initState] using h0
  refine ⟨hres, ?_, ?_⟩
  · rw [combined, hres]
  · rw [combined, hres, List.length_flatten, List.map_map]
    rfl

/-- Witness for C4: two concrete successful reaches with tables of sizes 2
and 1. -/
theorem c4_concatenation_witness :
    (∀ p ∈ pairsW, okEnv p.1.env p.2)
    ∧ ((runPipeline 1 (pairsW.map Prod.fst)).1.results = pairsW.map Prod.snd
       ∧ combined (runPipeline 1 (pairsW.map Prod.fst)).1
           = (pairsW.map Prod.snd).flatten
       ∧ (combined (runPipeline 1 (pairsW.map Prod.fst)).1).length
           = (pairsW.map (fun p => p.2.length)).sum) :=
  have hp : ∀ p ∈ pairsW, okEnv p.1.env p.2 := by
    intro p hp
    simp only [pairsW, List.mem_cons, List.not_mem_nil, or_false] at hp
    rcases hp with rfl | rfl
    · exact ⟨none, "a", by decide, rfl⟩
    · exact ⟨none, "b", by decide, rfl⟩
  ⟨hp, c4_concatenation 1 pairsW hp⟩

/-- Claim C3: a 400 response (after the optional 429 retry) yields the
bad-request outcome; that outcome appends exactly one log line made of the
timestamp and the reach identifier, increments the error counter by one,
contributes no table; and the loop then continues with the remaining
reaches. -/
theorem c3_bad_request {Row : Type} (st : RunState Row) (rid now : String)
    (delay : Rat) (env : ReachEnv Row) (ra : Option String) (b : Body Row) :
    (env.first = Attempt.resp 400 ra b →
      (processReach rid delay env).1 = ReachOutcome.badRequest)
    ∧ ((processReach rid delay env).1 = ReachOutcome.badRequest →
        (stepState st rid now (processReach rid delay env).1).log
            = st.log ++ [logLine now rid]
        ∧ (stepState st rid now (processReach rid delay env).1).errors
            = st.errors + 1
        ∧ (stepState st rid now (processReach rid delay env).1).results
            = st.results)
    ∧ (∀ rest : List (ReachItem Row),
        (runFrom delay st (ReachItem.mk rid now env :: rest)).1
          = (runFrom delay
              (stepState st rid now (processReach rid delay env).1) rest).1) := by
  refine ⟨?_, ?_, ?_⟩
  · intro hf
    simp [processReach, hf, finishResp]
  · intro hout
    rw [hout]
    simp [stepState]
  · intro rest
    rfl

/-- Witness for C3 at a concrete 400 environment, starting from the empty
run state. -/
theorem c3_bad_request_witness :
    (env400W.first = Attempt.resp 400 none (Body.csv "" none))
    ∧ (processReach "r7" (1 : Rat) env400W).1 = ReachOutcome.badRequest
    ∧ (stepState (initState Nat) "r7" "T0"
        (processReach "r7" (1 : Rat) env400W).1).log
        = (initState Nat).log ++ [logLine "T0" "r7"]
    ∧ (stepState (initState Nat) "r7" "T0"
        (processReach "r7" (1 : Rat) env400W).1).errors
        = (initState Nat).errors + 1
    ∧ (stepState (initState Nat) "r7" "T0"
        (processReach "r7" (1 : Rat) env400W).1).results
        = (initState Nat).results :=
  have h := c3_bad_request (initState Nat) "r7" "T0" 1 env400W none
    (Body.csv "" none)
  have h1 := h.1 rfl
  ⟨rfl, h1, (h.2.1 h1).1, (h.2.1 h1).2.1, (h.2.1 h1).2.2⟩

/-- Counterexample for claim C2: the claim says an absent *or unparsable*
`Retry-After` header defaults to 10 seconds and the request is retried
once.  In the code `int('soon')` raises `ValueError`, the per-reach
`except` catches it, and the reach is counted as an error with no retry:
at an environment whose first response is a 429 with `Retry-After: soon`
(and whose second response would be a 200 with data), only one request is
issued — not the two the claim requires — and the reach fails. -/
theorem c2_counterexample :
    (processReach "r1" (1 : Rat) envC2).1 = ReachOutcome.failed
    ∧ countStarts (processReach "r1" (1 : Rat) envC2).2 = 1
    ∧ ¬ countStarts (processReach "r1" (1 : Rat) envC2).2 = 2 := by
  refine ⟨by decide, by decide, by decide⟩

/-- Claim C2 (amended): on a 429 first response the pipeline reads the
`Retry-After` header, defaulting to 10 seconds only when the header is
absent; when the header parses to a nonnegative integer `k` it sleeps `k`
seconds and retries exactly once (the trace holds exactly two request
starts), and a second 429 is not retried but counted as an error; when the
header is present but unparsable the conversion raises, the reach is
counted as an error, and no retry happens. -/
theorem c2_retry_amended {Row : Type} (rid : String) (delay : Rat)
    (env : ReachEnv Row) (ra : Option String) (b : Body Row)
    (h : env.first = Attempt.resp 429 ra b) :
    retryAfterVal none = some 10
    ∧ (∀ k : Int, retryAfterVal ra = some k → 0 ≤ k →
        ((processReach rid delay env).2
            = [Event.reqStart rid, Event.slept (k : Rat), Event.reqStart rid,
                Event.slept delay]
          ∧ ∀ s2 ra2 b2, env.second = Attempt.resp s2 ra2 b2 → s2 = 429 →
              (processReach rid delay env).1 = ReachOutcome.failed))
    ∧ (retryAfterVal ra = none →
        (processReach rid delay env).1 = ReachOutcome.failed
        ∧ (processReach rid delay env).2
            = [Event.reqStart rid, Event.slept delay]) := by
  refine ⟨rfl, ?_, ?_⟩
  · intro k hk hk0
    have hklt : ¬ k < 0 := not_lt.2 hk0
    constructor
    · cases hsec : env.second with
      | exn => simp [processReach, h, hk, hklt, hsec]
      | resp s2 ra2 b2 => simp [processReach, h, hk, hklt, hsec]
    · intro s2 ra2 b2 hsec hs2
      subst hs2
      simp [processReach, h, hk, hklt, hsec, finishResp]
  · intro hk
    simp [processReach, h, hk]

/-- Witness for the amended C2 at a concrete 429-then-429 environment
with an absent header. -/
theorem c2_retry_amended_witness :
    (env429W.first = Attempt.resp 429 none (Body.csv "" none))
    ∧ (processReach "r2" (1 : Rat) env429W).2
        = [Event.reqStart "r2", Event.slept ((10 : Int) : Rat),
            Event.reqStart "r2", Event.slept 1]
    ∧ (processReach "r2" (1 : Rat) env429W).1 = ReachOutcome.failed :=
  have h := c2_retry_amended "r2" 1 env429W none (Body.csv "" none) rfl
  have h2 := h.2.1 10 rfl (by decide)
  ⟨rfl, h2.1, h2.2 429 none (Body.csv "" none) rfl rfl⟩

/-- Counterexample for claim C6: the loader stores the upload identity only
on a successful parse, so "re-parses only when the identity changes" is
false — after a first load of a bundle that fails to parse, a second load
with the identical identity invokes the parser again (while the claim says
it must not re-parse). -/
theorem c6_counterexample :
    ((processUpload (⟨none, none⟩ : Session Nat) filesW true
        (ParseResult.err "boom")).state = (⟨none, none⟩ : Session Nat))
    ∧ (processUpload
        (processUpload (⟨none, none⟩ : Session Nat) filesW true
          (ParseResult.err "boom")).state
        filesW true (ParseResult.err "boom")).parsed = true := by
  refine ⟨by decide, by decide⟩

/-- Claim C6 (amended): the loader parses exactly when some files are
uploaded, their identity differs from the *stored* identity, and the bundle
has a geometry file; a load whose identity equals the stored identity is a
complete no-op; and only a successful parse stores the identity — so a
second load identical to a previous *successful* load does not re-parse and
leaves the session unchanged, while after a failed load the same bundle is
parsed again. -/
theorem c6_reload_amended {D : Type} (st : Session D)
    (files : List (String × Nat)) (hasShp : Bool) (p : ParseResult D) :
    ((processUpload st files hasShp p).parsed = true
      ↔ (files ≠ [] ∧ st.upload_key ≠ some files ∧ hasShp = true))
    ∧ (st.upload_key = some files →
        processUpload st files hasShp p = ⟨st, false, none⟩)
    ∧ (∀ d : D, files ≠ [] →
        (processUpload st files true (ParseResult.ok d)).state.upload_key
          = some files
        ∧ ∀ (hs : Bool) (q : ParseResult D),
            processUpload
              (processUpload st files true (ParseResult.ok d)).state files hs q
            = ⟨(processUpload st files true (ParseResult.ok d)).state,
                false, none⟩) := by
  refine ⟨?_, ?_, ?_⟩
  · by_cases h1 : files = []
    · simp [processUpload, h1]
    · by_cases h2 : st.upload_key = some files
      · simp [processUpload, h1, h2]
      · cases hasShp with
        | false => simp [processUpload, h1, h2]
        | true => cases p <;> simp [processUpload, h1, h2]
  · intro h2
    by_cases h1 : files = []
    · subst h1
      simp [processUpload, h2]
    · simp [processUpload, h1, h2]
  · intro d h1
    by_cases h2 : st.upload_key = some files
    · constructor
      · simp [processUpload, h1, h2]
      · intro hs q
        simp [processUpload, h1, h2]
    · constructor
      · simp [processUpload, h1, h2]
      · intro hs q
        simp [processUpload, h1, h2]

/-- Witness for the amended C6: a successful load stores the identity and
an identical reload (even one whose parse would fail) is a no-op. -/
theorem c6_reload_amended_witness :
    (filesW ≠ [])
    ∧ (processUpload (⟨none, none⟩ : Session Nat) filesW true
        (ParseResult.ok 5)).state.upload_key = some filesW
    ∧ processUpload
        (processUpload (⟨none, none⟩ : Session Nat) filesW true
          (ParseResult.ok 5)).state filesW true (ParseResult.err "e")
      = ⟨(processUpload (⟨none, none⟩ : Session Nat) filesW true
          (ParseResult.ok 5)).state, false, none⟩ :=
  have hne : filesW ≠ [] := by decide
  have h := (c6_reload_amended (⟨none, none⟩ : Session Nat) filesW true
    (ParseResult.ok 5)).2.2 5 hne
  ⟨hne, h.1, h.2 true (ParseResult.err "e")⟩

/-- Claim C7: when the geometry file fails to parse (and a parse was
actually attempted: files uploaded, identity differing from the stored
one), the user is shown an error carrying the underlying message, and the
session — in particular any previously loaded dataset — is left exactly as
it was. -/
theorem c7_parse_failure_preserves {D : Type} (st : Session D)
    (files : List (String × Nat)) (m : String)
    (h1 : files ≠ []) (h2 : st.upload_key ≠ some files) :
    processUpload st files true (ParseResult.err m)
      = ⟨st, true, some ("Error loading shapefile: " ++ m)⟩ := by
  simp [processUpload, h1, h2]

/-- Witness for C7: a session holding dataset `7` keeps it across a failed
parse, and the shown error carries the underlying message. -/
theorem c7_parse_failure_preserves_witness :
    (filesW ≠ []
      ∧ (⟨some 7, none⟩ : Session Nat).upload_key ≠ some filesW)
    ∧ processUpload (⟨some 7, none⟩ : Session Nat) filesW true
        (ParseResult.err "boom")
      = ⟨⟨some 7, none⟩, true, some ("Error loading shapefile: " ++ "boom")⟩ :=
  ⟨⟨by decide, by decide⟩,
    c7_parse_failure_preserves (⟨some 7, none⟩ : Session Nat) filesW "boom"
      (by decide) (by decide)⟩

end SWORD
